import Mathlib

/-!
Verification of the prior-specification classes in
src/Interfaces/python/R/BayesBoom/R/bayes.py.

The module defines five value classes (SdPrior, NormalPrior,
Ar1CoefficientPrior, MvnPrior, UniformPrior).  We embed Python numeric
scalars as a sum type over Int, Rat and Bool; the Python builtin
float() is idealized as exact conversion to a rational (no rounding),
and numpy arrays are embedded as a shape together with flattened data.
Each Python constructor becomes a Lean function on these values; the
only constructor that can raise, MvnPrior, returns Except String.
-/

/-- A Python numeric scalar: int, float (idealized as a rational), or bool. -/
inductive PyVal where
  | pyint : Int → PyVal
  | pyfloat : Rat → PyVal
  | pybool : Bool → PyVal
deriving DecidableEq, Repr

namespace PyVal

/-- Numeric value of a scalar, as used by Python comparison and arithmetic
(True counts as 1, False as 0). -/
def toRat : PyVal → Rat
  | pyint n => (n : Rat)
  | pyfloat q => q
  | pybool b => if b then 1 else 0

/-- Integer value of an int-like scalar (used for int and bool arithmetic). -/
def toInt : PyVal → Int
  | pyint n => n
  | pyfloat q => ⌊q⌋
  | pybool b => if b then 1 else 0

/-- Whether the scalar is a Python float. -/
def isfloat : PyVal → Bool
  | pyfloat _ => true
  | _ => false

/-- Whether the scalar is a Python bool. -/
def isbool : PyVal → Bool
  | pybool _ => true
  | _ => false

/-- The Python builtin float() on a numeric argument. -/
def pyFloat : PyVal → PyVal
  | pyint n => pyfloat (n : Rat)
  | pyfloat q => pyfloat q
  | pybool b => pyfloat (if b then 1 else 0)

/-- The Python builtin bool() on a numeric argument (nonzero is truthy). -/
def pyBool (v : PyVal) : PyVal :=
  pybool (decide (v.toRat ≠ 0))

/-- Python multiplication on numeric scalars: float if either operand is a
float, otherwise int. -/
def pyMul : PyVal → PyVal → PyVal
  | pyfloat a, b => pyfloat (a * b.toRat)
  | a, pyfloat b => pyfloat (a.toRat * b)
  | a, b => pyint (a.toInt * b.toInt)

/-- Python exponentiation by a nonnegative integer literal: float base gives
a float, int-like base gives an int. -/
def pyPow : PyVal → Nat → PyVal
  | pyfloat a, n => pyfloat (a ^ n)
  | a, n => pyint (a.toInt ^ n)

/-- Python comparison a < b on numeric scalars. -/
def pyLt (a b : PyVal) : Bool :=
  decide (a.toRat < b.toRat)

theorem pyFloat_eq (v : PyVal) : pyFloat v = pyfloat v.toRat := by
  cases v <;> rfl

theorem toRat_pyFloat (v : PyVal) : (pyFloat v).toRat = v.toRat := by
  cases v <;> rfl

theorem isfloat_pyFloat (v : PyVal) : (pyFloat v).isfloat = true := by
  cases v <;> rfl

end PyVal

open PyVal

/-- A numpy ndarray, embedded as its shape and flattened numeric data. -/
structure NDArray where
  shape : List Nat
  data : List Rat
deriving DecidableEq, Repr

namespace NDArray

/-- Number of dimensions: len(a.shape). -/
def ndim (a : NDArray) : Nat := a.shape.length

/-- The Python builtin len() on an array: the first entry of its shape. -/
def len (a : NDArray) : Nat := a.shape.headD 0

end NDArray

/-- External boom.GaussianModel, recorded by its constructor arguments. -/
structure GaussianModel where
  mu : PyVal
  sigma : PyVal
deriving DecidableEq, Repr

/-- External boom.ChisqModel, recorded by its constructor arguments. -/
structure ChisqModel where
  sample_size : PyVal
  sigma_guess : PyVal
deriving DecidableEq, Repr

/-- A serialized attribute value: a numeric scalar or an array. -/
inductive Attr where
  | num : PyVal → Attr
  | arr : NDArray → Attr
deriving DecidableEq, Repr

/-- A plain attribute mapping, the shape of a Python instance dict. -/
abbrev StateDict := List (String × Attr)

/-- Look up a numeric attribute in a state dict. -/
def lookupNum (d : StateDict) (k : String) : Option PyVal :=
  match d.lookup k with
  | some (Attr.num v) => some v
  | _ => none

/-- Look up an array attribute in a state dict. -/
def lookupArr (d : StateDict) (k : String) : Option NDArray :=
  match d.lookup k with
  | some (Attr.arr v) => some v
  | _ => none

/-- SdPrior: a prior for a standard deviation, storing the attributes set
by its constructor. -/
structure SdPrior where
  sigma_guess : PyVal
  sample_size : PyVal
  initial_value : PyVal
  fixed : PyVal
  upper_limit : PyVal
deriving DecidableEq, Repr

namespace SdPrior

/-- SdPrior.__init__: every scalar is stored through float(), fixed through
bool(); a missing initial_value defaults to sigma_guess. -/
def init (sigma_guess sample_size : PyVal) (initial_value : Option PyVal)
    (fixed : PyVal) (upper_limit : PyVal) : SdPrior :=
  { sigma_guess := pyFloat sigma_guess
    sample_size := pyFloat sample_size
    initial_value := pyFloat (initial_value.getD sigma_guess)
    fixed := pyBool fixed
    upper_limit := pyFloat upper_limit }

/-- The sum_of_squares property: self.sigma_guess**2 * self.sample_size. -/
def sum_of_squares (p : SdPrior) : PyVal :=
  pyMul (pyPow p.sigma_guess 2) p.sample_size

/-- SdPrior.boom / create_chisq_model: boom.ChisqModel(sample_size, sigma_guess). -/
def boom (p : SdPrior) : ChisqModel :=
  { sample_size := p.sample_size, sigma_guess := p.sigma_guess }

/-- SdPrior.__getstate__: the instance dict. -/
def getstate (p : SdPrior) : StateDict :=
  [("sigma_guess", Attr.num p.sigma_guess),
   ("sample_size", Attr.num p.sample_size),
   ("initial_value", Attr.num p.initial_value),
   ("fixed", Attr.num p.fixed),
   ("upper_limit", Attr.num p.upper_limit)]

/-- SdPrior.__setstate__: restore the instance dict wholesale. -/
def setstate (d : StateDict) : Option SdPrior := do
  let sg ← lookupNum d "sigma_guess"
  let ss ← lookupNum d "sample_size"
  let iv ← lookupNum d "initial_value"
  let fx ← lookupNum d "fixed"
  let ul ← lookupNum d "upper_limit"
  return ⟨sg, ss, iv, fx, ul⟩

end SdPrior

/-- NormalPrior: a scalar normal prior. -/
structure NormalPrior where
  mu : PyVal
  sigma : PyVal
  initial_value : PyVal
deriving DecidableEq, Repr

namespace NormalPrior

/-- NormalPrior.__init__: mu and sigma are stored through float(); a missing
initial_value is stored as the raw mu argument (no float coercion), while a
supplied one is stored through float(). -/
def init (mu sigma : PyVal) (initial_value : Option PyVal) : NormalPrior :=
  { mu := pyFloat mu
    sigma := pyFloat sigma
    initial_value :=
      match initial_value with
      | none => mu
      | some v => pyFloat v }

/-- The mean property. -/
def mean (p : NormalPrior) : PyVal := p.mu

/-- The sd property. -/
def sd (p : NormalPrior) : PyVal := p.sigma

/-- The variance property: self.sigma ** 2. -/
def variance (p : NormalPrior) : PyVal := pyPow p.sigma 2

/-- NormalPrior.boom: boom.GaussianModel(mu, sigma). -/
def boom (p : NormalPrior) : GaussianModel :=
  { mu := p.mu, sigma := p.sigma }

/-- NormalPrior.__getstate__: the instance dict. -/
def getstate (p : NormalPrior) : StateDict :=
  [("mu", Attr.num p.mu),
   ("sigma", Attr.num p.sigma),
   ("initial_value", Attr.num p.initial_value)]

/-- NormalPrior.__setstate__: restore the instance dict wholesale. -/
def setstate (d : StateDict) : Option NormalPrior := do
  let mu ← lookupNum d "mu"
  let sigma ← lookupNum d "sigma"
  let iv ← lookupNum d "initial_value"
  return ⟨mu, sigma, iv⟩

end NormalPrior

/-- Ar1CoefficientPrior: prior information for an AR1 coefficient. -/
structure Ar1CoefficientPrior where
  mu : PyVal
  sigma : PyVal
  force_stationary : PyVal
  force_positive : PyVal
  initial_value : PyVal
deriving DecidableEq, Repr

namespace Ar1CoefficientPrior

/-- Ar1CoefficientPrior.__init__: every argument is stored verbatim, with no
coercion; a missing initial_value defaults to the raw mu. -/
def init (mu sigma force_stationary force_positive : PyVal)
    (initial_value : Option PyVal) : Ar1CoefficientPrior :=
  { mu := mu
    sigma := sigma
    force_stationary := force_stationary
    force_positive := force_positive
    initial_value := initial_value.getD mu }

/-- Ar1CoefficientPrior.boom: boom.GaussianModel(mu, sigma); the two flags
are not passed. -/
def boom (p : Ar1CoefficientPrior) : GaussianModel :=
  { mu := p.mu, sigma := p.sigma }

/-- Ar1CoefficientPrior.__getstate__: the instance dict. -/
def getstate (p : Ar1CoefficientPrior) : StateDict :=
  [("mu", Attr.num p.mu),
   ("sigma", Attr.num p.sigma),
   ("force_stationary", Attr.num p.force_stationary),
   ("force_positive", Attr.num p.force_positive),
   ("initial_value", Attr.num p.initial_value)]

/-- Ar1CoefficientPrior.__setstate__: restore the instance dict wholesale. -/
def setstate (d : StateDict) : Option Ar1CoefficientPrior := do
  let mu ← lookupNum d "mu"
  let sigma ← lookupNum d "sigma"
  let fs ← lookupNum d "force_stationary"
  let fp ← lookupNum d "force_positive"
  let iv ← lookupNum d "initial_value"
  return ⟨mu, sigma, fs, fp, iv⟩

end Ar1CoefficientPrior

/-- MvnPrior: a multivariate normal prior, storing mu and Sigma after the
shape checks pass. -/
structure MvnPrior where
  _mu : NDArray
  _Sigma : NDArray
deriving DecidableEq, Repr

namespace MvnPrior

/-- MvnPrior.__init__: four shape checks in source order, each raising its
own message; on success mu and Sigma are stored unchanged. -/
def init (mu Sigma : NDArray) : Except String MvnPrior :=
  if mu.ndim ≠ 1 then Except.error "mu must be a vector."
  else if Sigma.ndim ≠ 2 then Except.error "Sigma must be a matrix."
  else if Sigma.shape.getD 0 0 ≠ Sigma.shape.getD 1 0 then
    Except.error "Sigma must be symmetric"
  else if Sigma.shape.getD 0 0 ≠ mu.len then
    Except.error "mu and Sigma must be the same dimension."
  else Except.ok ⟨mu, Sigma⟩

/-- The mu property. -/
def mu (p : MvnPrior) : NDArray := p._mu

/-- The Sigma property. -/
def Sigma (p : MvnPrior) : NDArray := p._Sigma

/-- Default Python serialization of an MvnPrior: the instance dict. -/
def getstate (p : MvnPrior) : StateDict :=
  [("_mu", Attr.arr p._mu),
   ("_Sigma", Attr.arr p._Sigma)]

/-- Default Python restoration of an MvnPrior from an instance dict. -/
def setstate (d : StateDict) : Option MvnPrior := do
  let m ← lookupArr d "_mu"
  let s ← lookupArr d "_Sigma"
  return ⟨m, s⟩

end MvnPrior

/-- UniformPrior: a univariate uniform distribution on [lo, hi]. -/
structure UniformPrior where
  _lo : PyVal
  _hi : PyVal
deriving DecidableEq, Repr

namespace UniformPrior

/-- UniformPrior.__init__: if hi < lo the operands are swapped; the values
are stored verbatim, with no coercion. -/
def init (lo hi : PyVal) : UniformPrior :=
  if pyLt hi lo then ⟨hi, lo⟩ else ⟨lo, hi⟩

/-- Default Python serialization of a UniformPrior: the instance dict. -/
def getstate (p : UniformPrior) : StateDict :=
  [("_lo", Attr.num p._lo),
   ("_hi", Attr.num p._hi)]

/-- Default Python restoration of a UniformPrior from an instance dict. -/
def setstate (d : StateDict) : Option UniformPrior := do
  let lo ← lookupNum d "_lo"
  let hi ← lookupNum d "_hi"
  return ⟨lo, hi⟩

end UniformPrior

/-- C1: for every sigma_guess > 0 and sample_size > 0, the sum_of_squares
property of an SdPrior built from them equals sigma_guess squared times
sample_size, as a float. -/
theorem SdPrior.sum_of_squares_correct (sg ss : PyVal) (iv : Option PyVal)
    (fx ul : PyVal) (hsg : 0 < sg.toRat) (hss : 0 < ss.toRat) :
    (SdPrior.init sg ss iv fx ul).sum_of_squares
      = PyVal.pyfloat (sg.toRat ^ 2 * ss.toRat) := by
  simp [SdPrior.init, SdPrior.sum_of_squares, pyFloat_eq, pyMul, pyPow,
    PyVal.toRat]

/-- C1 witness: SdPrior(sigma_guess=2, sample_size=10).sum_of_squares is 40.0. -/
theorem SdPrior.sum_of_squares_correct_witness :
    (SdPrior.init (PyVal.pyfloat 2) (PyVal.pyfloat 10) none (PyVal.pybool false)
        (PyVal.pyfloat 0)).sum_of_squares = PyVal.pyfloat 40 := by
  have h := SdPrior.sum_of_squares_correct (PyVal.pyfloat 2) (PyVal.pyfloat 10)
    none (PyVal.pybool false) (PyVal.pyfloat 0) (by norm_num [PyVal.toRat])
    (by norm_num [PyVal.toRat])
  simpa [PyVal.toRat, show (2 : Rat) ^ 2 * 10 = 40 by norm_num] using h

/-- C2: the MvnPrior constructor runs its four shape checks in a fixed
order, each failure carrying its own distinct message; the first violated
check raises and no later check runs, and construction succeeds, storing mu
and Sigma unchanged, exactly when all four checks hold. -/
theorem MvnPrior.init_check_order (mu Sigma : NDArray) :
    (MvnPrior.init mu Sigma = Except.ok ⟨mu, Sigma⟩ ↔
      mu.ndim = 1 ∧ Sigma.ndim = 2 ∧
        Sigma.shape.getD 0 0 = Sigma.shape.getD 1 0 ∧
        Sigma.shape.getD 0 0 = mu.len) ∧
    (MvnPrior.init mu Sigma = Except.error "mu must be a vector." ↔
      mu.ndim ≠ 1) ∧
    (MvnPrior.init mu Sigma = Except.error "Sigma must be a matrix." ↔
      mu.ndim = 1 ∧ Sigma.ndim ≠ 2) ∧
    (MvnPrior.init mu Sigma = Except.error "Sigma must be symmetric" ↔
      mu.ndim = 1 ∧ Sigma.ndim = 2 ∧
        Sigma.shape.getD 0 0 ≠ Sigma.shape.getD 1 0) ∧
    (MvnPrior.init mu Sigma
        = Except.error "mu and Sigma must be the same dimension." ↔
      mu.ndim = 1 ∧ Sigma.ndim = 2 ∧
        Sigma.shape.getD 0 0 = Sigma.shape.getD 1 0 ∧
        Sigma.shape.getD 0 0 ≠ mu.len) := by
  unfold MvnPrior.init
  split_ifs with h1 h2 h3 h4 <;> simp_all

/-- C3 counterexample: with mu of shape (3,) and Sigma of shape (3, 4) the
constructor raises the non-square failure "Sigma must be symmetric", not the
dimension-mismatch failure claimed by the spec. -/
theorem MvnPrior.init_3x4_raises_nonsquare :
    MvnPrior.init ⟨[3], [0, 0, 0]⟩ ⟨[3, 4], List.replicate 12 0⟩
        = Except.error "Sigma must be symmetric" ∧
    MvnPrior.init ⟨[3], [0, 0, 0]⟩ ⟨[3, 4], List.replicate 12 0⟩
        ≠ Except.error "mu and Sigma must be the same dimension." := by
  constructor
  · rfl
  · intro h
    simp [MvnPrior.init, NDArray.ndim, NDArray.len] at h

/-- C3 amended: mu of shape (3,) with the square Sigma of shape (4, 4)
raises the dimension-mismatch failure; mu (3,) with Sigma (3, 4) raises the
non-square failure (the non-square check fires before the dimension check);
Sigma of shape (2, 3) raises the non-square failure; mu of shape (2, 2)
raises the not-a-vector failure. -/
theorem MvnPrior.init_concrete_failures :
    MvnPrior.init ⟨[3], [0, 0, 0]⟩ ⟨[4, 4], List.replicate 16 0⟩
        = Except.error "mu and Sigma must be the same dimension." ∧
    MvnPrior.init ⟨[3], [0, 0, 0]⟩ ⟨[3, 4], List.replicate 12 0⟩
        = Except.error "Sigma must be symmetric" ∧
    MvnPrior.init ⟨[3], [0, 0, 0]⟩ ⟨[2, 3], List.replicate 6 0⟩
        = Except.error "Sigma must be symmetric" ∧
    MvnPrior.init ⟨[2, 2], List.replicate 4 0⟩ ⟨[2, 2], List.replicate 4 0⟩
        = Except.error "mu must be a vector." := by
  exact ⟨rfl, rfl, rfl, rfl⟩

/-- C4: UniformPrior construction never fails; reversed bounds are swapped,
so the stored lo is the minimum and the stored hi the maximum of the two
numeric inputs and lo is at most hi; in particular UniformPrior(5, 2) stores
lo = 2 and hi = 5. -/
theorem UniformPrior.init_sorts_bounds (lo hi : PyVal) :
    ((UniformPrior.init lo hi)._lo).toRat = min lo.toRat hi.toRat ∧
    ((UniformPrior.init lo hi)._hi).toRat = max lo.toRat hi.toRat ∧
    ((UniformPrior.init lo hi)._lo).toRat ≤ ((UniformPrior.init lo hi)._hi).toRat ∧
    UniformPrior.init (PyVal.pyint 5) (PyVal.pyint 2)
      = ⟨PyVal.pyint 2, PyVal.pyint 5⟩ := by
  have key : ((UniformPrior.init lo hi)._lo = lo ∧ (UniformPrior.init lo hi)._hi = hi
        ∧ ¬ hi.toRat < lo.toRat)
      ∨ ((UniformPrior.init lo hi)._lo = hi ∧ (UniformPrior.init lo hi)._hi = lo
        ∧ hi.toRat < lo.toRat) := by
    unfold UniformPrior.init pyLt
    split_ifs with h <;> simp_all
  rcases key with ⟨h1, h2, h3⟩ | ⟨h1, h2, h3⟩
  · exact ⟨by rw [h1, min_eq_left (not_lt.mp h3)],
      by rw [h2, max_eq_right (not_lt.mp h3)],
      by rw [h1, h2]; exact not_lt.mp h3, by decide⟩
  · exact ⟨by rw [h1, min_eq_right h3.le],
      by rw [h2, max_eq_left h3.le],
      by rw [h1, h2]; exact h3.le, by decide⟩

/-- C5: when initial_value is omitted, the stored initial_value of an
SdPrior equals sigma_guess, and the stored initial_value of a NormalPrior
or an Ar1CoefficientPrior is the mu argument itself. -/
theorem default_initial_value_is_mean (sg ss fx ul mu sigma fs fp : PyVal) :
    ((SdPrior.init sg ss none fx ul).initial_value).toRat = sg.toRat ∧
    (NormalPrior.init mu sigma none).initial_value = mu ∧
    (Ar1CoefficientPrior.init mu sigma fs fp none).initial_value = mu := by
  refine ⟨?_, rfl, rfl⟩
  simp [SdPrior.init, Option.getD, toRat_pyFloat]

/-- C6: Ar1CoefficientPrior.boom returns a Gaussian model built from
exactly (mu, sigma); the stored force_stationary and force_positive flags
are not passed, so two priors differing only in those flags (and in
initial_value) convert to the same model. -/
theorem Ar1CoefficientPrior.boom_ignores_flags
    (mu sigma fs fp fs2 fp2 : PyVal) (iv iv2 : Option PyVal) :
    (Ar1CoefficientPrior.init mu sigma fs fp iv).boom
        = { mu := mu, sigma := sigma } ∧
    (Ar1CoefficientPrior.init mu sigma fs fp iv).boom
        = (Ar1CoefficientPrior.init mu sigma fs2 fp2 iv2).boom := by
  exact ⟨rfl, rfl⟩

/-- C7: for each of the five prior classes, capturing the instance state as
a plain attribute mapping and restoring that mapping yields an object with
exactly the same attributes. -/
theorem serialize_restore_roundtrip (a : SdPrior) (b : NormalPrior)
    (c : Ar1CoefficientPrior) (d : MvnPrior) (e : UniformPrior) :
    SdPrior.setstate a.getstate = some a ∧
    NormalPrior.setstate b.getstate = some b ∧
    Ar1CoefficientPrior.setstate c.getstate = some c ∧
    MvnPrior.setstate d.getstate = some d ∧
    UniformPrior.setstate e.getstate = some e := by
  exact ⟨rfl, rfl, rfl, rfl, rfl⟩

/-- C8 counterexample: Ar1CoefficientPrior applies no float coercion, so
constructing it with the int 1 as mu stores the int 1 itself, which is not
a float; this refutes the claim that every constructor of the five classes
coerces its hyperparameters to floating point before storing them. -/
theorem Ar1CoefficientPrior.stores_int_uncoerced :
    (Ar1CoefficientPrior.init (PyVal.pyint 1) (PyVal.pyint 2)
        (PyVal.pybool true) (PyVal.pybool false) none).mu = PyVal.pyint 1 ∧
    PyVal.isfloat (Ar1CoefficientPrior.init (PyVal.pyint 1) (PyVal.pyint 2)
        (PyVal.pybool true) (PyVal.pybool false) none).mu = false := by
  exact ⟨rfl, rfl⟩

/-- C8 amended: SdPrior coerces all four of its scalar hyperparameters to
float and fixed to bool; NormalPrior coerces mu, sigma and any supplied
initial_value to float; but Ar1CoefficientPrior and UniformPrior store
their arguments verbatim with no coercion at all, and MvnPrior either
fails or stores its two arrays unconverted. -/
theorem float_coercion_per_class
    (sg ss fx ul mu sigma v amu asigma fs fp lo hi : PyVal)
    (iv : Option PyVal) (aiv : Option PyVal) (dmu dSigma : NDArray) :
    PyVal.isfloat (SdPrior.init sg ss iv fx ul).sigma_guess = true ∧
    PyVal.isfloat (SdPrior.init sg ss iv fx ul).sample_size = true ∧
    PyVal.isfloat (SdPrior.init sg ss iv fx ul).initial_value = true ∧
    PyVal.isfloat (SdPrior.init sg ss iv fx ul).upper_limit = true ∧
    PyVal.isbool (SdPrior.init sg ss iv fx ul).fixed = true ∧
    PyVal.isfloat (NormalPrior.init mu sigma iv).mu = true ∧
    PyVal.isfloat (NormalPrior.init mu sigma iv).sigma = true ∧
    PyVal.isfloat (NormalPrior.init mu sigma (some v)).initial_value = true ∧
    Ar1CoefficientPrior.init amu asigma fs fp aiv
      = ⟨amu, asigma, fs, fp, aiv.getD amu⟩ ∧
    (UniformPrior.init lo hi = ⟨lo, hi⟩ ∨ UniformPrior.init lo hi = ⟨hi, lo⟩) ∧
    (MvnPrior.init dmu dSigma = Except.ok ⟨dmu, dSigma⟩ ∨
      (∃ msg, MvnPrior.init dmu dSigma = Except.error msg)) := by
  refine ⟨isfloat_pyFloat sg, isfloat_pyFloat ss, isfloat_pyFloat _,
    isfloat_pyFloat ul, rfl, isfloat_pyFloat mu, isfloat_pyFloat sigma,
    isfloat_pyFloat v, rfl, ?_, ?_⟩
  · unfold UniformPrior.init
    split_ifs <;> simp
  · unfold MvnPrior.init
    split_ifs <;> simp

/-- C9: the constructors of SdPrior, NormalPrior, Ar1CoefficientPrior and
UniformPrior perform no semantic validation: for every numeric input,
including negative scale parameters, construction succeeds and the stored
attributes carry exactly the given numeric values; in particular an SdPrior
with sigma_guess = -3 is constructed and stores -3. -/
theorem constructors_accept_all_numeric_input
    (sg ss fx ul mu sigma amu asigma fs fp lo hi : PyVal)
    (iv aiv : Option PyVal) :
    ((SdPrior.init sg ss iv fx ul).sigma_guess).toRat = sg.toRat ∧
    ((SdPrior.init sg ss iv fx ul).sample_size).toRat = ss.toRat ∧
    ((SdPrior.init sg ss iv fx ul).upper_limit).toRat = ul.toRat ∧
    ((NormalPrior.init mu sigma iv).mu).toRat = mu.toRat ∧
    ((NormalPrior.init mu sigma iv).sigma).toRat = sigma.toRat ∧
    Ar1CoefficientPrior.init amu asigma fs fp (some (aiv.getD amu))
      = ⟨amu, asigma, fs, fp, aiv.getD amu⟩ ∧
    ((UniformPrior.init lo hi = ⟨lo, hi⟩) ∨ (UniformPrior.init lo hi = ⟨hi, lo⟩)) ∧
    (SdPrior.init (PyVal.pyfloat (-3)) (PyVal.pyfloat 1) none
        (PyVal.pybool false) (PyVal.pyfloat 0)).sigma_guess
      = PyVal.pyfloat (-3) := by
  refine ⟨toRat_pyFloat sg, toRat_pyFloat ss, toRat_pyFloat ul,
    toRat_pyFloat mu, toRat_pyFloat sigma, rfl, ?_, rfl⟩
  unfold UniformPrior.init
  split_ifs <;> simp

/-- C10: when NormalPrior is built without an initial_value, the stored
initial_value is the raw mu argument with no float coercion while the
stored mu is float(mu); a supplied initial_value is stored as
float(initial_value); the defaulted initial_value and the mu attribute are
numerically equal, and for the int argument 2 only the mu attribute is a
float. -/
theorem NormalPrior.initial_value_coercion (mu sigma v : PyVal) :
    (NormalPrior.init mu sigma none).initial_value = mu ∧
    (NormalPrior.init mu sigma none).mu = PyVal.pyfloat mu.toRat ∧
    (NormalPrior.init mu sigma (some v)).initial_value = PyVal.pyfloat v.toRat ∧
    ((NormalPrior.init mu sigma none).initial_value).toRat
      = ((NormalPrior.init mu sigma none).mu).toRat ∧
    PyVal.isfloat (NormalPrior.init (PyVal.pyint 2) (PyVal.pyfloat 1)
        none).initial_value = false ∧
    PyVal.isfloat (NormalPrior.init (PyVal.pyint 2) (PyVal.pyfloat 1)
        none).mu = true := by
  refine ⟨rfl, pyFloat_eq mu, pyFloat_eq v, ?_, rfl, rfl⟩
  show mu.toRat = (pyFloat mu).toRat
  rw [toRat_pyFloat]
